import Mathlib

/-!
A verification model of `main.go` of api-deploy

`main.go` builds one `http.Handler`: the gorilla/mux router `r` with four routes
(`GET /status`, `GET /repair-bay`, `POST /teapot`, `PUT /set-system-idx/{id:[0-9]+}`),
wrapped by the CORS middleware `routesConfig`.  The handlers close over the two fixed
slices `systems` and `codes` and over the mutable integer `systemIdx`.

The model is request-at-a-time and sequential: a handler is a function from the
`http.ResponseWriter` it is given, the request and the current `systemIdx` to an
`Outcome` (the writer after the handler returned together with the new `systemIdx`,
a recovered handler panic, or the exit of the process through `log.Fatalf`).

What the handler code calls in the Go libraries is modelled next to it, from the
documented behaviour of those libraries: `http.Header`, `http.ResponseWriter`,
`http.Error`, `strconv.Atoi`, `json.Encoder.Encode`, `path.Clean` and the matching
loop of `mux.Router`, and the dispatch of the `http.Server` that `main` starts, which
hands every request to `rc` except the asterisk-form request `OPTIONS *`, which it
answers itself.  Headers that the HTTP server adds on its own when it writes the
response to the wire (`Date`, `Content-Length`, a sniffed `Content-Type`), its answers
to requests it cannot parse, and the connection handling (timeouts, shutdown) are outside
the model.
-/

namespace ApiDeploy

/-! ## `http.Header` -/

/-- The header map of a response.  Every key used by the program is already in
canonical MIME form and carries a single value, so the map is an association list from
key to value. -/
abbrev Header := List (String × String)

/-- The method `Header.Get`: the value stored under `k`, if any. -/
def headerGet (h : Header) (k : String) : Option String :=
  List.lookup k h

/-- The method `Header.Del`: remove the entry under `k`. -/
def headerDel (h : Header) (k : String) : Header :=
  h.filter (fun p => p.1 != k)

/-- The method `Header.Set`: replace whatever is stored under `k` by the single value `v`. -/
def headerSet (h : Header) (k v : String) : Header :=
  headerDel h k ++ [(k, v)]

/-! ## `http.ResponseWriter` -/

/-- The state of the `http.ResponseWriter` handed to a handler.  `header` is the live
map returned by `w.Header()`; `sent` is the copy of it taken when the status line is
written, after which changes to `header` no longer reach the client; `head` records
that the request method is HEAD, for which the server discards body bytes. -/
structure ResponseWriter where
  header : Header
  wroteHeader : Bool
  status : Nat
  sent : Header
  body : String
  head : Bool
deriving DecidableEq

/-- The call `w.Header().Set(k, v)`. -/
def ResponseWriter.SetHeader (w : ResponseWriter) (k v : String) : ResponseWriter :=
  { w with header := headerSet w.header k v }

/-- The call `w.Header().Del(k)`. -/
def ResponseWriter.DelHeader (w : ResponseWriter) (k : String) : ResponseWriter :=
  { w with header := headerDel w.header k }

/-- The call `w.WriteHeader(code)`: the first call fixes the status code and the headers sent;
a later call is reported as superfluous by the server and otherwise ignored. -/
def ResponseWriter.WriteHeader (w : ResponseWriter) (code : Nat) : ResponseWriter :=
  if w.wroteHeader then w
  else { w with wroteHeader := true, status := code, sent := w.header }

/-- The function `bodyAllowedForStatus` of net/http: 1xx, 204 and 304 responses have no body. -/
def bodyAllowedForStatus (code : Nat) : Bool :=
  !((100 ≤ code && code ≤ 199) || code == 204 || code == 304)

/-- The call `w.Write(data)`: writes the header with status 200 if it was not written yet, then
appends `data` to the body unless the request is a HEAD request or the status admits no
body. -/
def ResponseWriter.Write (w : ResponseWriter) (data : String) : ResponseWriter :=
  let w1 := w.WriteHeader 200
  if w1.head || !bodyAllowedForStatus w1.status then w1
  else { w1 with body := w1.body ++ data }

/-- The response as the client receives it. -/
structure Response where
  status : Nat
  header : Header
  body : String
deriving DecidableEq

/-- What the server sends once the handler has returned: a handler that never wrote the
header gets status 200. -/
def ResponseWriter.finish (w : ResponseWriter) : Response :=
  let w1 := w.WriteHeader 200
  { status := w1.status, header := w1.sent, body := w1.body }

/-- The call `http.Error(w, msg, code)`: plain-text content type, `nosniff`, the status code, and
the message printed with `fmt.Fprintln`, that is followed by a line feed. -/
def httpError (w : ResponseWriter) (msg : String) (code : Nat) : ResponseWriter :=
  let w1 := w.DelHeader "Content-Length"
  let w2 := w1.SetHeader "Content-Type" "text/plain; charset=utf-8"
  let w3 := w2.SetHeader "X-Content-Type-Options" "nosniff"
  (w3.WriteHeader code).Write (msg ++ "\n")

/-! ## `strconv.Atoi` -/

/-- The two errors of `strconv`: `ErrSyntax` and `ErrRange`. -/
inductive NumError where
  | invalid
  | range
deriving DecidableEq

/-- The function `strconv.Quote` on a string without control or non-printable characters: the
string in double quotes, with the double quote and the backslash escaped. -/
def quote (s : String) : String :=
  let esc (c : Char) : List Char :=
    if c.toNat = 34 then [Char.ofNat 92, Char.ofNat 34]
    else if c.toNat = 92 then [Char.ofNat 92, Char.ofNat 92]
    else [c]
  String.mk ([Char.ofNat 34] ++ (s.toList.map esc).flatten ++ [Char.ofNat 34])

/-- The text `(*NumError).Error()` for the function `fn` applied to the input `s`. -/
def NumError.text (fn s : String) : NumError → String
  | .invalid => "strconv." ++ fn ++ ": parsing " ++ quote s ++ ": invalid syntax"
  | .range => "strconv." ++ fn ++ ": parsing " ++ quote s ++ ": value out of range"

/-- The largest `uint64`. -/
def maxUint64 : Nat := 2 ^ 64 - 1

/-- The digit loop of `strconv.ParseUint(s, 10, 64)` with accumulator `n`: a byte that
is not a decimal digit is a syntax error; an accumulator at or above
`maxUint64/10 + 1`, or a wrapped or too large sum, is a range error. -/
def parseUintLoop : List Char → Nat → Except NumError Nat
  | [], n => .ok n
  | c :: cs, n =>
    if !c.isDigit then .error .invalid
    else if n ≥ maxUint64 / 10 + 1 then .error .range
    else
      let n10 := n * 10
      let n1 := (n10 + (c.toNat - 48)) % 2 ^ 64
      if n1 < n10 ∨ n1 > maxUint64 then .error .range
      else parseUintLoop cs n1

/-- The call `strconv.ParseUint(s, 10, 64)`. -/
def ParseUint (s : List Char) : Except NumError Nat :=
  if s = [] then .error .invalid else parseUintLoop s 0

/-- The call `strconv.ParseInt(s, 10, 0)` for the 64-bit `int`: an optional sign, then the
unsigned digits, then the check against `1 << 63`. -/
def ParseInt (s : List Char) : Except NumError Int :=
  if s = [] then .error .invalid
  else
    let neg : Bool := s.head? = some '-'
    let digits : List Char :=
      if s.head? = some '+' ∨ s.head? = some '-' then s.tail else s
    match ParseUint digits with
    | .error e => .error e
    | .ok un =>
      if !neg && un ≥ 2 ^ 63 then .error .range
      else if neg && un > 2 ^ 63 then .error .range
      else .ok (if neg then -(un : Int) else (un : Int))

/-- The call `strconv.Atoi(s)` with a 64-bit `int`: the parsed value, or the text of the error
(`err.Error()`).  The library's fast path for short inputs computes the same result as
`ParseInt`. -/
def Atoi (s : String) : Except String Int :=
  match ParseInt s.toList with
  | .ok n => .ok n
  | .error e => .error (e.text "Atoi" s)

/-! ## `models.Status` and `json.Encoder.Encode` -/

/-- Modelled from the spec: the struct `models.Status` of the package
`github.com/EdoRguez/api-deploy/models`, whose declaration is not among the sources.  It
has the single string field `DamagedSystem`. -/
structure Status where
  DamagedSystem : String
deriving DecidableEq

/-- Modelled from the spec: the JSON key of the field `DamagedSystem`, fixed by the
struct tag in the declaration of `models.Status`; the spec gives the body as
`{"damaged_system": <name>}`. -/
def damagedSystemKey : String := "damaged_system"

/-- The escape of one character inside a JSON string as `encoding/json` writes it with
HTML escaping on (the short forms for backspace and form feed are those of Go 1.22 and
later).  The names in `systems` contain no character that is escaped. -/
def jsonEscape (c : Char) : String :=
  let n := c.toNat
  if n = 34 then "\\\""
  else if n = 92 then "\\\\"
  else if n = 8 then "\\b"
  else if n = 12 then "\\f"
  else if n = 10 then "\\n"
  else if n = 13 then "\\r"
  else if n = 9 then "\\t"
  else if n < 32 ∨ n = 60 ∨ n = 62 ∨ n = 38 then
    "\\u00" ++ String.mk [Nat.digitChar (n / 16), Nat.digitChar (n % 16)]
  else if n = 8232 then "\\u2028"
  else if n = 8233 then "\\u2029"
  else String.singleton c

/-- A Go string as a JSON string literal. -/
def jsonString (s : String) : String :=
  "\"" ++ String.join (s.toList.map jsonEscape) ++ "\""

/-- What `json.NewEncoder(w).Encode(&model)` writes for a `models.Status`: the object on
one line, followed by a line feed. -/
def Status.Encode (m : Status) : String :=
  "\x7b" ++ jsonString damagedSystemKey ++ ":" ++ jsonString m.DamagedSystem ++ "\x7d\n"

/-! ## `html/template` and the template file -/

/-- A parsed template: `Execute` maps the data to the text written to the response
before execution ended and to the error it ended with, if any. -/
structure Template where
  Execute : Status → String × Option String

/-- What lies outside the process at the time of a request: the result of
`template.ParseFiles("./templates/template.html")`, either the text of the error or the
parsed template.  The template file is not among the sources. -/
structure Env where
  ParseFiles : Except String Template

/-! ## Requests, outcomes and handlers -/

/-- An incoming request: method, URL path and body.  `vars` are the route variables
that the router attaches to the request it passes to a handler (`mux.Vars`). -/
structure Request where
  method : String
  path : String
  body : String
  vars : List (String × String)
deriving DecidableEq

/-- The lookup `mux.Vars(r)[k]`: the variable `k`, the empty string when there is none. -/
def Request.Var (r : Request) (k : String) : String :=
  (List.lookup k r.vars).getD ""

/-- How the handling of one request ends: the handler returned (`served`, with the
writer and the value of `systemIdx` it leaves), the handler panicked and the server
recovered, dropping the connection (`panicked`, `systemIdx` is kept), or the process
was terminated by `log.Fatalf` (`exited`). -/
inductive Outcome where
  | served (w : ResponseWriter) (systemIdx : Int)
  | panicked (systemIdx : Int)
  | exited
deriving DecidableEq

/-- The response of an outcome, when there is one. -/
def Outcome.response : Outcome → Option Response
  | .served w _ => some w.finish
  | .panicked _ => none
  | .exited => none

/-- The value of `systemIdx` after an outcome, when the process is still running. -/
def Outcome.nextIdx : Outcome → Option Int
  | .served _ i => some i
  | .panicked i => some i
  | .exited => none

/-- An `http.Handler` whose closure holds `systemIdx`. -/
abbrev Handler := ResponseWriter → Request → Int → Outcome

/-- The writer the server creates for a request. -/
def newWriter (r : Request) : ResponseWriter :=
  { header := [], wroteHeader := false, status := 0, sent := [], body := "",
    head := r.method == "HEAD" }

/-! ## The state of `main` -/

/-- The slice `systems` of `main`. -/
def systems : List String :=
  ["navigation", "communications", "life_support", "engines", "deflector_shield"]

/-- The slice `codes` of `main`. -/
def codes : List String :=
  ["NAV-01", "COM-02", "LIFE-03", "ENG-04", "SHLD-05"]

/-- The value `systemIdx` is initialised with. -/
def initSystemIdx : Int := 3

/-- Go slice indexing `xs[i]` with an `int` index: `none` stands for the run-time panic
on an index out of range. -/
def index (xs : List String) (i : Int) : Option String :=
  if 0 ≤ i ∧ i < (xs.length : Int) then xs[i.toNat]? else none

/-! ## The four route handlers of `main` -/

/-- The handler of `/status`. -/
def statusHandler : Handler := fun w _ systemIdx =>
  let w1 := w.SetHeader "Content-Type" "application/json"
  match index systems systemIdx with
  | none => .panicked systemIdx
  | some name => .served (w1.Write (Status.Encode { DamagedSystem := name })) systemIdx

/-- The handler of `/repair-bay`.  A failure to parse the template file reaches
`log.Fatalf`, which ends the process before the `http.Error` below it is run. -/
def repairBayHandler (env : Env) : Handler := fun w _ systemIdx =>
  let w1 := w.SetHeader "Content-Type" "text/html"
  match env.ParseFiles with
  | .error _ => .exited
  | .ok tmpl =>
    match index codes systemIdx with
    | none => .panicked systemIdx
    | some code =>
      let res := tmpl.Execute { DamagedSystem := code }
      let w2 := if res.1 = "" then w1 else w1.Write res.1
      match res.2 with
      | some e => .served (httpError w2 e 500) systemIdx
      | none => .served w2 systemIdx

/-- The handler of `/teapot`. -/
def teapotHandler : Handler := fun w _ systemIdx =>
  .served ((w.WriteHeader 418).Write "I'm a teapot") systemIdx

/-- The handler of `/set-system-idx/{id:[0-9]+}`. -/
def setSystemIdxHandler : Handler := fun w r systemIdx =>
  match Atoi (r.Var "id") with
  | .error e => .served (httpError w e 500) systemIdx
  | .ok id =>
    if id < 0 ∨ id > (systems.length : Int) - 1 then
      .served (httpError w "ID doesn't exist" 500) systemIdx
    else
      .served (w.WriteHeader 204) id

/-! ## `mux.Router` -/

/-- The elements of a path between its slashes, as `strings.Split(p, "/")` gives them. -/
def splitSlash : List Char → List (List Char)
  | [] => [[]]
  | c :: cs =>
    if c = '/' then [] :: splitSlash cs
    else
      match splitSlash cs with
      | [] => [[c]]
      | e :: es => (c :: e) :: es

/-- The element loop of `path.Clean` on a rooted path: empty elements and `.` are
skipped, `..` removes the last element kept (if any), every other element is kept.
`out` holds the kept elements, last one first. -/
def cleanElems : List (List Char) → List (List Char) → List (List Char)
  | [], out => out.reverse
  | e :: es, out =>
    if e = [] ∨ e = ['.'] then cleanElems es out
    else if e = ['.', '.'] then cleanElems es out.tail
    else cleanElems es (e :: out)

/-- The function `path.Clean` on a rooted path. -/
def pathClean (p : List Char) : List Char :=
  '/' :: List.intercalate ['/'] (cleanElems (splitSlash p) [])

/-- The function `cleanPath` of gorilla/mux: the path is made rooted, cleaned with `path.Clean`, and
a trailing slash that `path.Clean` removed is put back. -/
def cleanPath (p : String) : String :=
  if p.toList = [] then "/"
  else
    let q : List Char := if p.toList.head? = some '/' then p.toList else '/' :: p.toList
    let np := pathClean q
    if q.getLast? = some '/' ∧ np ≠ ['/'] then String.mk (np ++ ['/']) else String.mk np

/-- The rest of `l` after the prefix `pre`, if `l` starts with it. -/
def stripPrefix : List Char → List Char → Option (List Char)
  | [], l => some l
  | _ :: _, [] => none
  | a :: pre, b :: l => if a = b then stripPrefix pre l else none

/-- The path matcher of a route registered with a literal path `pat`, that is the
regular expression `^pat$`: it matches that path alone and binds no variable. -/
def matchExact (pat : String) (p : String) : Option (List (String × String)) :=
  if p = pat then some [] else none

/-- The path matcher of `/set-system-idx/{id:[0-9]+}`, that is the regular expression
`^/set-system-idx/(?P<v0>[0-9]+)$`: the prefix followed by one or more ASCII digits up
to the end of the path, which are bound to the variable `id`. -/
def matchSetSystemIdx (p : String) : Option (List (String × String)) :=
  match stripPrefix "/set-system-idx/".toList p.toList with
  | none => none
  | some rest =>
    if rest ≠ [] ∧ rest.all Char.isDigit then some [("id", String.mk rest)] else none

/-- A route registered with `HandleFunc(path, f).Methods(m)`: its path matcher, its
method and its handler. -/
structure Route where
  pathMatch : String → Option (List (String × String))
  method : String
  handler : Handler

/-- The result of `Router.Match`. -/
inductive RouteMatch where
  | found (h : Handler) (vars : List (String × String))
  | methodMismatch
  | notFound

/-- The loop of `Router.Match` over the routes in the order of their registration: the
first route whose path and method both match wins; a route whose path matches and
whose method does not leaves `ErrMethodMismatch` behind (`mismatch`), which is the
result when no later route matches. -/
def routerMatch : List Route → Request → Bool → RouteMatch
  | [], _, mismatch => if mismatch then .methodMismatch else .notFound
  | rt :: rest, r, mismatch =>
    match rt.pathMatch r.path with
    | none => routerMatch rest r mismatch
    | some vars =>
      if r.method = rt.method then .found rt.handler vars
      else routerMatch rest r true

/-- The method `Router.ServeHTTP`: a path that is not in clean form is answered with a redirect
(301) to its clean form; otherwise the matched handler is run on the request with the
route variables attached, a method mismatch is answered with 405 and an empty body, and
no match with `http.NotFound`. -/
def routerServeHTTP (routes : List Route) : Handler := fun w r systemIdx =>
  let p := cleanPath r.path
  if p ≠ r.path then
    .served ((w.SetHeader "Location" p).WriteHeader 301) systemIdx
  else
    match routerMatch routes r false with
    | .found h vars => h w { r with vars := vars } systemIdx
    | .methodMismatch => .served (w.WriteHeader 405) systemIdx
    | .notFound => .served (httpError w "404 page not found" 404) systemIdx

/-! ## `routesConfig` and the handler of the server -/

/-- The function `routesConfig`: the three CORS headers are set, an OPTIONS request is
answered with 200 at once, any other request is passed to `next`. -/
def routesConfig (next : Handler) : Handler := fun w r systemIdx =>
  let w1 := w.SetHeader "Access-Control-Allow-Origin" "*"
  let w2 := w1.SetHeader "Access-Control-Allow-Methods" "GET, POST, PUT, DELETE, OPTIONS"
  let w3 := w2.SetHeader "Access-Control-Allow-Headers" "Content-Type, Authorization"
  if r.method = "OPTIONS" then .served (w3.WriteHeader 200) systemIdx
  else next w3 r systemIdx

/-- The routes `main` registers on the router `r`, in order. -/
def routes (env : Env) : List Route :=
  [ { pathMatch := matchExact "/status", method := "GET", handler := statusHandler },
    { pathMatch := matchExact "/repair-bay", method := "GET",
      handler := repairBayHandler env },
    { pathMatch := matchExact "/teapot", method := "POST", handler := teapotHandler },
    { pathMatch := matchSetSystemIdx, method := "PUT", handler := setSystemIdxHandler } ]

/-- The router `r` of `main` as a handler. -/
def router (env : Env) : Handler :=
  routerServeHTTP (routes env)

/-- The handler `rc := routesConfig(r)` that `main` gives to the server. -/
def rc (env : Env) : Handler :=
  routesConfig (router env)

/-- The handler `globalOptionsHandler` of net/http: it sets `Content-Length: 0` and
writes nothing else, so that the response has status 200 and an empty body. -/
def globalOptionsHandler : Handler := fun w _ systemIdx =>
  .served (w.SetHeader "Content-Length" "0") systemIdx

/-- The handling of one request by the server in the state `systemIdx`, that is
`serverHandler.ServeHTTP` of net/http for the server `s` of `main`, whose `Handler` is
`rc` and whose `DisableGeneralOptionsHandler` is not set: the request `OPTIONS *` goes
to `globalOptionsHandler`, every other request to `rc`, on a fresh writer.  The test
`req.RequestURI == "*"` is made on the path: the server parses the asterisk-form request
target, and no other one, to the URL path `*` (every other path it produces is empty or
starts with a slash). -/
def serve (env : Env) (r : Request) (systemIdx : Int) : Outcome :=
  if r.path = "*" ∧ r.method = "OPTIONS" then globalOptionsHandler (newWriter r) r systemIdx
  else rc env (newWriter r) r systemIdx

/-- The states the process can be in: the initial one, and every state left by the
handling of a request (under any state of the template file) in a reachable state. -/
inductive Reachable : Int → Prop where
  | init : Reachable initSystemIdx
  | step (env : Env) (r : Request) (i j : Int) :
      Reachable i → (serve env r i).nextIdx = some j → Reachable j

/-! ## Definitions used to state the properties -/

/-- The request `PUT /set-system-idx/{id}`. -/
def putSetSystemIdx (id body : String) (vars : List (String × String)) : Request :=
  { method := "PUT", path := "/set-system-idx/" ++ id, body := body, vars := vars }

/-- The request `GET /status`. -/
def getStatus (body : String) (vars : List (String × String)) : Request :=
  { method := "GET", path := "/status", body := body, vars := vars }

/-- The request `GET /repair-bay`. -/
def getRepairBay (body : String) (vars : List (String × String)) : Request :=
  { method := "GET", path := "/repair-bay", body := body, vars := vars }

/-- The request `POST /teapot`. -/
def postTeapot (body : String) (vars : List (String × String)) : Request :=
  { method := "POST", path := "/teapot", body := body, vars := vars }

/-- The three CORS headers with the values `routesConfig` gives them. -/
def corsHeaders : Header :=
  [("Access-Control-Allow-Origin", "*"),
   ("Access-Control-Allow-Methods", "GET, POST, PUT, DELETE, OPTIONS"),
   ("Access-Control-Allow-Headers", "Content-Type, Authorization")]

/-- A key that is none of the three CORS header keys. -/
def NotCorsKey (k : String) : Prop :=
  k ≠ "Access-Control-Allow-Origin" ∧ k ≠ "Access-Control-Allow-Methods" ∧
    k ≠ "Access-Control-Allow-Headers"

/-- The writer `w` with the three CORS headers put in front of its header map, and in
front of the headers sent if the header was written. -/
def withCors (w : ResponseWriter) : ResponseWriter :=
  { w with header := corsHeaders ++ w.header,
           sent := if w.wroteHeader then corsHeaders ++ w.sent else w.sent }

/-- The response `resp` with the three CORS headers added in front of its headers. -/
def Response.addCors (resp : Response) : Response :=
  { resp with header := corsHeaders ++ resp.header }

/-- The outcome with `f` applied to the writer of a handler that returned. -/
def Outcome.mapWriter (f : ResponseWriter → ResponseWriter) : Outcome → Outcome
  | .served w i => .served (f w) i
  | .panicked i => .panicked i
  | .exited => .exited

/-- The value of a string of decimal digits. -/
def decVal (s : String) : Nat :=
  s.toList.foldl (fun a c => a * 10 + (c.toNat - 48)) 0

/-- A non-empty string of ASCII digits: what the pattern `[0-9]+` matches. -/
def IsDigits (s : String) : Prop :=
  s.toList ≠ [] ∧ s.toList.all Char.isDigit = true

/-- A handler that treats a writer carrying the CORS headers like the same writer
without them, and leaves them in place. -/
def KeepsCors (h : Handler) : Prop :=
  ∀ w r i, h (withCors w) r i = (h w r i).mapWriter withCors

/-- The body a run of the template leaves behind: the text it wrote, followed, when it
ended with an error, by the line `http.Error` prints for it. -/
def renderBody (res : String × Option String) : String :=
  res.1 ++ (match res.2 with
    | none => ""
    | some e => e ++ "\n")

/-- A template that renders the code in a paragraph and never fails. -/
def sampleTemplate : Template :=
  { Execute := fun p => ("<p>" ++ p.DamagedSystem ++ "</p>", none) }

/-- An environment in which the template file parses to `sampleTemplate`. -/
def sampleEnv : Env :=
  { ParseFiles := .ok sampleTemplate }

instance (s : String) : Decidable (IsDigits s) := by
  unfold IsDigits; infer_instance

/-! ## Lemmas on headers and writers -/

theorem headerDel_cors (h : Header) (k : String) (hk : NotCorsKey k) :
    headerDel (corsHeaders ++ h) k = corsHeaders ++ headerDel h k := by
  obtain ⟨h1, h2, h3⟩ := hk
  simp [headerDel, corsHeaders, List.filter_cons, Ne.symm h1, Ne.symm h2, Ne.symm h3]

theorem headerSet_cors (h : Header) (k v : String) (hk : NotCorsKey k) :
    headerSet (corsHeaders ++ h) k v = corsHeaders ++ headerSet h k v := by
  simp [headerSet, headerDel_cors h k hk]

theorem withCors_SetHeader (w : ResponseWriter) (k v : String) (hk : NotCorsKey k) :
    (withCors w).SetHeader k v = withCors (w.SetHeader k v) := by
  simp [withCors, ResponseWriter.SetHeader, headerSet_cors _ k v hk]

theorem withCors_DelHeader (w : ResponseWriter) (k : String) (hk : NotCorsKey k) :
    (withCors w).DelHeader k = withCors (w.DelHeader k) := by
  simp [withCors, ResponseWriter.DelHeader, headerDel_cors _ k hk]

theorem withCors_WriteHeader (w : ResponseWriter) (code : Nat) :
    (withCors w).WriteHeader code = withCors (w.WriteHeader code) := by
  cases hw : w.wroteHeader <;> simp [withCors, ResponseWriter.WriteHeader, hw]

theorem withCors_Write (w : ResponseWriter) (data : String) :
    (withCors w).Write data = withCors (w.Write data) := by
  unfold ResponseWriter.Write
  rw [withCors_WriteHeader]
  cases hw : w.wroteHeader <;>
    by_cases hb : (w.head || !bodyAllowedForStatus w.status) = true <;>
    by_cases hc : (w.head || !bodyAllowedForStatus 200) = true <;>
    simp_all [withCors, ResponseWriter.WriteHeader]

theorem withCors_httpError (w : ResponseWriter) (msg : String) (code : Nat) :
    httpError (withCors w) msg code = withCors (httpError w msg code) := by
  unfold httpError
  simp only []
  rw [withCors_DelHeader _ _ (by unfold NotCorsKey; decide),
    withCors_SetHeader _ _ _ (by unfold NotCorsKey; decide),
    withCors_SetHeader _ _ _ (by unfold NotCorsKey; decide),
    withCors_WriteHeader, withCors_Write]

theorem withCors_finish (w : ResponseWriter) :
    (withCors w).finish = w.finish.addCors := by
  cases hw : w.wroteHeader <;>
    simp [withCors, ResponseWriter.finish, ResponseWriter.WriteHeader, Response.addCors, hw]

/-! ## The handlers commute with the CORS headers -/

theorem statusHandler_keepsCors : KeepsCors statusHandler := by
  intro w r i
  unfold statusHandler
  simp only []
  rw [withCors_SetHeader _ _ _ (by unfold NotCorsKey; decide)]
  cases index systems i <;> simp [Outcome.mapWriter, withCors_Write]

theorem repairBayHandler_keepsCors (env : Env) : KeepsCors (repairBayHandler env) := by
  intro w r i
  unfold repairBayHandler
  simp only []
  rw [withCors_SetHeader _ _ _ (by unfold NotCorsKey; decide)]
  cases env.ParseFiles with
  | error e => simp [Outcome.mapWriter]
  | ok tmpl =>
    cases index codes i with
    | none => simp [Outcome.mapWriter]
    | some code =>
      by_cases ho : (tmpl.Execute { DamagedSystem := code }).1 = "" <;>
        cases he : (tmpl.Execute { DamagedSystem := code }).2 <;>
        simp [Outcome.mapWriter, ho, he, withCors_Write, withCors_httpError]

theorem teapotHandler_keepsCors : KeepsCors teapotHandler := by
  intro w r i
  simp [teapotHandler, Outcome.mapWriter, withCors_Write, withCors_WriteHeader]

theorem setSystemIdxHandler_keepsCors : KeepsCors setSystemIdxHandler := by
  intro w r i
  unfold setSystemIdxHandler
  cases Atoi (r.Var "id") with
  | error e => simp [Outcome.mapWriter, withCors_httpError]
  | ok id =>
    by_cases hid : id < 0 ∨ id > (systems.length : Int) - 1 <;>
      simp [Outcome.mapWriter, hid, withCors_httpError, withCors_WriteHeader]

theorem routerMatch_found (rs : List Route) (r : Request) (mm : Bool) (h : Handler)
    (vars : List (String × String)) (hm : routerMatch rs r mm = .found h vars) :
    ∃ rt ∈ rs, h = rt.handler ∧ rt.pathMatch r.path = some vars ∧ r.method = rt.method := by
  induction rs generalizing mm with
  | nil =>
    unfold routerMatch at hm
    split at hm <;> cases hm
  | cons rt rest ih =>
    unfold routerMatch at hm
    split at hm
    · obtain ⟨rt1, hmem, hrest⟩ := ih mm hm
      exact ⟨rt1, List.mem_cons_of_mem _ hmem, hrest⟩
    · rename_i vs hp
      split at hm
      · rename_i hmeth
        injection hm with h1 h2
        subst h1
        subst h2
        exact ⟨rt, List.mem_cons_self _ _, rfl, hp, hmeth⟩
      · obtain ⟨rt1, hmem, hrest⟩ := ih true hm
        exact ⟨rt1, List.mem_cons_of_mem _ hmem, hrest⟩

theorem routes_handler (env : Env) (rt : Route) (hrt : rt ∈ routes env) :
    (rt.handler = statusHandler ∧ rt.method = "GET" ∧ rt.pathMatch = matchExact "/status") ∨
    (rt.handler = repairBayHandler env ∧ rt.method = "GET" ∧
      rt.pathMatch = matchExact "/repair-bay") ∨
    (rt.handler = teapotHandler ∧ rt.method = "POST" ∧ rt.pathMatch = matchExact "/teapot") ∨
    (rt.handler = setSystemIdxHandler ∧ rt.method = "PUT" ∧
      rt.pathMatch = matchSetSystemIdx) := by
  simp only [routes, List.mem_cons, List.mem_singleton, List.not_mem_nil, or_false] at hrt
  rcases hrt with h | h | h | h <;> subst h <;> simp

theorem routes_keepsCors (env : Env) (rt : Route) (hrt : rt ∈ routes env) :
    KeepsCors rt.handler := by
  rcases routes_handler env rt hrt with h | h | h | h <;> rw [h.1]
  · exact statusHandler_keepsCors
  · exact repairBayHandler_keepsCors env
  · exact teapotHandler_keepsCors
  · exact setSystemIdxHandler_keepsCors

theorem router_keepsCors (env : Env) : KeepsCors (router env) := by
  intro w r i
  unfold router routerServeHTTP
  simp only []
  by_cases hp : cleanPath r.path ≠ r.path
  · rw [if_pos hp, if_pos hp,
      withCors_SetHeader _ _ _ (by unfold NotCorsKey; decide), withCors_WriteHeader]
    rfl
  · rw [if_neg hp, if_neg hp]
    cases hm : routerMatch (routes env) r false with
    | found h vars =>
      obtain ⟨rt, hmem, hh, -, -⟩ := routerMatch_found _ _ _ _ _ hm
      simp only []
      rw [hh]
      exact routes_keepsCors env rt hmem _ _ _
    | methodMismatch => simp [Outcome.mapWriter, withCors_WriteHeader]
    | notFound => simp [Outcome.mapWriter, withCors_httpError]

theorem newWriter_cors (r : Request) :
    (((newWriter r).SetHeader "Access-Control-Allow-Origin" "*").SetHeader
        "Access-Control-Allow-Methods" "GET, POST, PUT, DELETE, OPTIONS").SetHeader
        "Access-Control-Allow-Headers" "Content-Type, Authorization"
      = withCors (newWriter r) := by
  simp [newWriter, ResponseWriter.SetHeader, headerSet, headerDel, withCors, corsHeaders]

theorem serve_asterisk (env : Env) (r : Request) (i : Int) (hp : r.path = "*")
    (hr : r.method = "OPTIONS") :
    serve env r i = .served ((newWriter r).SetHeader "Content-Length" "0") i := by
  unfold serve
  rw [if_pos ⟨hp, hr⟩]
  rfl

theorem serve_options (env : Env) (r : Request) (i : Int) (hp : r.path ≠ "*")
    (hr : r.method = "OPTIONS") :
    serve env r i = .served ((withCors (newWriter r)).WriteHeader 200) i := by
  unfold serve
  rw [if_neg (fun h => hp h.1)]
  unfold rc routesConfig
  simp only [newWriter_cors, hr, if_true]

theorem serve_router (env : Env) (r : Request) (i : Int) (hr : r.method ≠ "OPTIONS") :
    serve env r i = (router env (newWriter r) r i).mapWriter withCors := by
  unfold serve
  rw [if_neg (fun h => hr h.2)]
  unfold rc routesConfig
  simp only [newWriter_cors, hr, if_false]
  exact router_keepsCors env _ _ _


/-! ## `Atoi` on digit strings -/

theorem isDigit_bounds (c : Char) (h : c.isDigit = true) : 48 ≤ c.toNat ∧ c.toNat ≤ 57 := by
  simp only [Char.isDigit, Bool.and_eq_true, decide_eq_true_eq] at h
  exact ⟨h.1, h.2⟩

theorem foldl_dec_ge (ds : List Char) (n : Nat) :
    n ≤ ds.foldl (fun a c => a * 10 + (c.toNat - 48)) n := by
  induction ds generalizing n with
  | nil => simp
  | cons c cs ih =>
    simp only [List.foldl_cons]
    have := ih (n * 10 + (c.toNat - 48))
    omega

theorem parseUintLoop_digits (ds : List Char) (n : Nat)
    (hd : ∀ c ∈ ds, c.isDigit = true) (hn : n < 2 ^ 64) :
    parseUintLoop ds n =
      if ds.foldl (fun a c => a * 10 + (c.toNat - 48)) n < 2 ^ 64
      then .ok (ds.foldl (fun a c => a * 10 + (c.toNat - 48)) n)
      else .error .range := by
  induction ds generalizing n with
  | nil => simp only [parseUintLoop, List.foldl_nil]; rw [if_pos hn]
  | cons c cs ih =>
    have hc := hd c (List.mem_cons_self _ _)
    have hb := isDigit_bounds c hc
    have hge := foldl_dec_ge cs (n * 10 + (c.toNat - 48))
    have hcs : ∀ c ∈ cs, c.isDigit = true := fun x hx => hd x (List.mem_cons_of_mem _ hx)
    simp only [parseUintLoop, hc, List.foldl_cons, maxUint64]
    simp only [Bool.not_true, Bool.false_eq_true, if_false]
    generalize hdv : c.toNat - 48 = d at *
    have hd9 : d ≤ 9 := by omega
    generalize hF : List.foldl (fun a c => a * 10 + (c.toNat - 48)) (n * 10 + d) cs = F at *
    by_cases h1 : n ≥ (2 ^ 64 - 1) / 10 + 1
    · rw [if_pos h1, if_neg (by omega)]
    · rw [if_neg h1]
      by_cases h2 : n * 10 + d < 2 ^ 64
      · rw [Nat.mod_eq_of_lt h2, if_neg (by omega), ih _ hcs h2, hF]
      · have hm : (n * 10 + d) % 2 ^ 64 = n * 10 + d - 2 ^ 64 := by omega
        rw [hm, if_pos (by omega), if_neg (by omega)]

theorem ParseInt_digits (ds : List Char) (hne : ds ≠ [])
    (hd : ∀ c ∈ ds, c.isDigit = true) :
    ParseInt ds =
      if ds.foldl (fun a c => a * 10 + (c.toNat - 48)) 0 < 2 ^ 63
      then .ok ((ds.foldl (fun a c => a * 10 + (c.toNat - 48)) 0 : Nat) : Int)
      else .error .range := by
  obtain ⟨c, cs, rfl⟩ := List.exists_cons_of_ne_nil hne
  have hc := hd c (List.mem_cons_self _ _)
  have hb := isDigit_bounds c hc
  have hplus : c ≠ '+' := by
    intro h; subst h; revert hb; decide
  have hminus : c ≠ '-' := by
    intro h; subst h; revert hb; decide
  unfold ParseInt ParseUint
  simp only [List.head?_cons, Option.some.injEq, hplus, hminus, or_self, if_false,
    decide_False, reduceCtorEq]
  rw [parseUintLoop_digits _ _ hd (by norm_num)]
  generalize List.foldl (fun a c => a * 10 + (c.toNat - 48)) 0 (c :: cs) = F
  by_cases h1 : F < 2 ^ 63
  · rw [if_pos (by omega : F < 2 ^ 64), if_pos h1]
    simp
    omega
  · rw [if_neg h1]
    by_cases h2 : F < 2 ^ 64
    · rw [if_pos h2]
      simp
      omega
    · rw [if_neg h2]

theorem Atoi_digits (s : String) (hs : IsDigits s) :
    Atoi s =
      if decVal s < 2 ^ 63 then .ok (decVal s : Int)
      else .error (NumError.range.text "Atoi" s) := by
  unfold Atoi decVal
  rw [ParseInt_digits s.toList hs.1 (by simpa [List.all_eq_true] using hs.2)]
  by_cases h : List.foldl (fun a c => a * 10 + (c.toNat - 48)) 0 s.toList < 2 ^ 63
  · rw [if_pos h, if_pos h]
  · rw [if_neg h, if_neg h]


/-! ## Routing -/

theorem stripPrefix_some (pre l rest : List Char) :
    stripPrefix pre l = some rest ↔ l = pre ++ rest := by
  induction pre generalizing l with
  | nil => simp [stripPrefix, eq_comm]
  | cons a pre ih =>
    cases l with
    | nil => simp [stripPrefix]
    | cons b l =>
      by_cases hab : a = b
      · simp [stripPrefix, hab, ih]
      · simp [stripPrefix, hab, Ne.symm hab]

theorem splitSlash_noSlash (ds : List Char) (h : ∀ c ∈ ds, c ≠ '/') :
    splitSlash ds = [ds] := by
  induction ds with
  | nil => rfl
  | cons c cs ih =>
    have hc := h c (List.mem_cons_self _ _)
    have := ih (fun x hx => h x (List.mem_cons_of_mem _ hx))
    simp [splitSlash, hc, this]

theorem isDigit_ne_slash (c : Char) (h : c.isDigit = true) : c ≠ '/' := by
  intro hc; subst hc; revert h; decide

theorem isDigit_ne_dot (c : Char) (h : c.isDigit = true) : c ≠ '.' := by
  intro hc; subst hc; revert h; decide

theorem setSystemIdx_chars : "/set-system-idx/".toList =
    ['/', 's', 'e', 't', '-', 's', 'y', 's', 't', 'e', 'm', '-', 'i', 'd', 'x', '/'] := rfl

theorem splitSlash_setSystemIdx (ds : List Char) (h : ∀ c ∈ ds, c ≠ '/') :
    splitSlash ("/set-system-idx/".toList ++ ds) =
      [[], ['s', 'e', 't', '-', 's', 'y', 's', 't', 'e', 'm', '-', 'i', 'd', 'x'], ds] := by
  rw [setSystemIdx_chars]
  simp [splitSlash, splitSlash_noSlash ds h]

theorem cleanPath_rooted (t : List Char) :
    cleanPath (String.mk ('/' :: t)) =
      if ('/' :: t).getLast? = some '/' ∧ pathClean ('/' :: t) ≠ ['/']
      then String.mk (pathClean ('/' :: t) ++ ['/'])
      else String.mk (pathClean ('/' :: t)) := by
  simp [cleanPath]

theorem cleanPath_setSystemIdx_elem (ds : List Char) (hslash : ∀ c ∈ ds, c ≠ '/')
    (hne : ds ≠ []) (hdot : ds ≠ ['.']) (hdotdot : ds ≠ ['.', '.']) :
    cleanPath (String.mk ("/set-system-idx/".toList ++ ds)) =
      String.mk ("/set-system-idx/".toList ++ ds) := by
  have hs := splitSlash_setSystemIdx ds hslash
  have hlast : ds.getLast? ≠ some '/' := by
    intro hl
    exact hslash _ (List.mem_of_getLast?_eq_some hl) rfl
  have hlast2 : ("/set-system-idx/".toList ++ ds).getLast? ≠ some '/' := by
    rw [List.getLast?_append_of_ne_nil _ hne]; exact hlast
  have hL : "/set-system-idx/".toList ++ ds =
      '/' :: (['s', 'e', 't', '-', 's', 'y', 's', 't', 'e', 'm', '-', 'i', 'd', 'x', '/'] ++ ds) := by
    rw [setSystemIdx_chars]; rfl
  rw [hL] at hs hlast2 ⊢
  rw [cleanPath_rooted, if_neg (fun h => hlast2 h.1)]
  simp only [pathClean, hs]
  simp [cleanElems, hne, hdot, hdotdot, List.intercalate]

theorem cleanPath_setSystemIdx (ds : List Char) (hne : ds ≠ [])
    (hd : ∀ c ∈ ds, c.isDigit = true) :
    cleanPath (String.mk ("/set-system-idx/".toList ++ ds)) =
      String.mk ("/set-system-idx/".toList ++ ds) := by
  apply cleanPath_setSystemIdx_elem ds (fun c hc => isDigit_ne_slash c (hd c hc)) hne
  · intro h; subst h; exact isDigit_ne_dot _ (hd _ (List.mem_cons_self _ _)) rfl
  · intro h; subst h; exact isDigit_ne_dot _ (hd _ (List.mem_cons_self _ _)) rfl

theorem mk_prefix_append (ds : List Char) :
    String.mk ("/set-system-idx/".toList ++ ds) = "/set-system-idx/" ++ String.mk ds := by
  apply String.ext
  rw [String.data_append]
  rfl

theorem matchSetSystemIdx_some (p : String) (vars : List (String × String)) :
    matchSetSystemIdx p = some vars ↔
      ∃ id, IsDigits id ∧ p = "/set-system-idx/" ++ id ∧ vars = [("id", id)] := by
  unfold matchSetSystemIdx
  constructor
  · intro h
    split at h
    · cases h
    · rename_i rest hrest
      split at h
      · rename_i hd
        injection h with h
        refine ⟨String.mk rest, ⟨hd.1, hd.2⟩, ?_, h.symm⟩
        rw [stripPrefix_some] at hrest
        apply String.ext
        rw [String.data_append]
        exact hrest
      · cases h
  · rintro ⟨id, hid, rfl, rfl⟩
    have h1 : stripPrefix "/set-system-idx/".toList ("/set-system-idx/" ++ id).toList
        = some id.toList := by
      rw [stripPrefix_some]
      exact String.data_append _ _
    rw [h1]
    simp only []
    rw [if_pos ⟨hid.1, hid.2⟩]
    rfl

theorem matchExact_setSystemIdx (x : String) :
    matchExact "/status" ("/set-system-idx/" ++ x) = none ∧
    matchExact "/repair-bay" ("/set-system-idx/" ++ x) = none ∧
    matchExact "/teapot" ("/set-system-idx/" ++ x) = none := by
  have key : ∀ pat : String, pat.toList.take 3 ≠ ['/', 's', 'e'] →
      matchExact pat ("/set-system-idx/" ++ x) = none := by
    intro pat hpat
    unfold matchExact
    rw [if_neg]
    intro h
    apply hpat
    rw [← h]
    show (("/set-system-idx/" ++ x).data).take 3 = _
    rw [String.data_append]
    rfl
  exact ⟨key _ (by decide), key _ (by decide), key _ (by decide)⟩

theorem cleanPath_setSystemIdx_string (id : String) (hid : IsDigits id) :
    cleanPath ("/set-system-idx/" ++ id) = "/set-system-idx/" ++ id := by
  have h := cleanPath_setSystemIdx id.toList hid.1 (by simpa [List.all_eq_true] using hid.2)
  have e : String.mk ("/set-system-idx/".toList ++ id.toList) = "/set-system-idx/" ++ id := by
    apply String.ext
    rw [String.data_append]
    rfl
  rw [e] at h
  exact h

theorem router_setSystemIdx (env : Env) (w : ResponseWriter) (r : Request) (i : Int)
    (id : String) (hm : r.method = "PUT") (hp : r.path = "/set-system-idx/" ++ id)
    (hid : IsDigits id) :
    router env w r i = setSystemIdxHandler w { r with vars := [("id", id)] } i := by
  unfold router routerServeHTTP
  simp only []
  rw [if_neg (by rw [hp, cleanPath_setSystemIdx_string id hid]; simp)]
  obtain ⟨h1, h2, h3⟩ := matchExact_setSystemIdx id
  have h4 := (matchSetSystemIdx_some ("/set-system-idx/" ++ id) [("id", id)]).2
    ⟨id, hid, rfl, rfl⟩
  simp [routes, routerMatch, hp, hm, h1, h2, h3, h4]


/-! ## What each handler does to `systemIdx` -/

theorem statusHandler_nextIdx (w : ResponseWriter) (r : Request) (i : Int) :
    (statusHandler w r i).nextIdx = some i := by
  unfold statusHandler
  cases index systems i <;> rfl

theorem repairBayHandler_nextIdx (env : Env) (w : ResponseWriter) (r : Request) (i j : Int)
    (h : (repairBayHandler env w r i).nextIdx = some j) : j = i := by
  unfold repairBayHandler at h
  cases hp : env.ParseFiles with
  | error e => simp [hp, Outcome.nextIdx] at h
  | ok tmpl =>
    cases hc : index codes i with
    | none => simpa [hp, hc, Outcome.nextIdx, eq_comm] using h
    | some code =>
      cases he : (tmpl.Execute { DamagedSystem := code }).2 <;>
        simpa [hp, hc, he, Outcome.nextIdx, eq_comm] using h

theorem teapotHandler_nextIdx (w : ResponseWriter) (r : Request) (i : Int) :
    (teapotHandler w r i).nextIdx = some i := rfl

theorem setSystemIdxHandler_digits (w : ResponseWriter) (r : Request) (i : Int)
    (id : String) (hvar : r.Var "id" = id) (hid : IsDigits id) :
    setSystemIdxHandler w r i =
      if decVal id < 2 ^ 63 then
        if decVal id ≤ 4 then .served (w.WriteHeader 204) (decVal id)
        else .served (httpError w "ID doesn't exist" 500) i
      else .served (httpError w (NumError.range.text "Atoi" id) 500) i := by
  unfold setSystemIdxHandler
  rw [hvar, Atoi_digits id hid]
  by_cases h1 : decVal id < 2 ^ 63
  · rw [if_pos h1, if_pos h1]
    by_cases h2 : decVal id ≤ 4
    · rw [if_pos h2]
      simp only [systems, List.length_cons, List.length_nil]
      rw [if_neg (by omega)]
    · rw [if_neg h2]
      simp only [systems, List.length_cons, List.length_nil]
      rw [if_pos (by omega)]
  · rw [if_neg h1, if_neg h1]

theorem router_nextIdx (env : Env) (w : ResponseWriter) (r : Request) (i j : Int)
    (h : (router env w r i).nextIdx = some j) (hne : j ≠ i) :
    r.method = "PUT" ∧ ∃ id, IsDigits id ∧ r.path = "/set-system-idx/" ++ id ∧
      decVal id ≤ 4 ∧ j = (decVal id : Int) := by
  unfold router routerServeHTTP at h
  simp only [] at h
  by_cases hp : cleanPath r.path ≠ r.path
  · rw [if_pos hp] at h
    simp only [Outcome.nextIdx, Option.some.injEq] at h
    exact absurd h.symm hne
  · rw [if_neg hp] at h
    cases hm : routerMatch (routes env) r false with
    | methodMismatch =>
      rw [hm] at h
      simp only [Outcome.nextIdx, Option.some.injEq] at h
      exact absurd h.symm hne
    | notFound =>
      rw [hm] at h
      simp only [Outcome.nextIdx, Option.some.injEq] at h
      exact absurd h.symm hne
    | found hd vars =>
      rw [hm] at h
      simp only [] at h
      obtain ⟨rt, hmem, hh, hpath, hmeth⟩ := routerMatch_found _ _ _ _ _ hm
      rcases routes_handler env rt hmem with hr | hr | hr | hr
      · rw [hh, hr.1, statusHandler_nextIdx] at h
        simp only [Option.some.injEq] at h
        exact absurd h.symm hne
      · rw [hh, hr.1] at h
        exact absurd (repairBayHandler_nextIdx _ _ _ _ _ h) hne
      · rw [hh, hr.1, teapotHandler_nextIdx] at h
        simp only [Option.some.injEq] at h
        exact absurd h.symm hne
      · rw [hr.2.2, matchSetSystemIdx_some] at hpath
        obtain ⟨id, hid, hpid, hvars⟩ := hpath
        refine ⟨hmeth.trans hr.2.1, id, hid, hpid, ?_⟩
        rw [hh, hr.1, setSystemIdxHandler_digits _ _ _ id (by rw [hvars]; rfl) hid] at h
        by_cases h1 : decVal id < 2 ^ 63
        · rw [if_pos h1] at h
          by_cases h2 : decVal id ≤ 4
          · rw [if_pos h2] at h
            simp only [Outcome.nextIdx, Option.some.injEq] at h
            exact ⟨h2, h.symm⟩
          · rw [if_neg h2] at h
            simp only [Outcome.nextIdx, Option.some.injEq] at h
            exact absurd h.symm hne
        · rw [if_neg h1] at h
          simp only [Outcome.nextIdx, Option.some.injEq] at h
          exact absurd h.symm hne

theorem mapWriter_nextIdx (f : ResponseWriter → ResponseWriter) (o : Outcome) :
    (o.mapWriter f).nextIdx = o.nextIdx := by
  cases o <;> rfl

theorem mapWriter_response (o : Outcome) :
    (o.mapWriter withCors).response = o.response.map Response.addCors := by
  cases o <;> simp [Outcome.mapWriter, Outcome.response, withCors_finish]

theorem serve_nextIdx (env : Env) (r : Request) (i j : Int)
    (h : (serve env r i).nextIdx = some j) (hne : j ≠ i) :
    r.method = "PUT" ∧ ∃ id, IsDigits id ∧ r.path = "/set-system-idx/" ++ id ∧
      decVal id ≤ 4 ∧ j = (decVal id : Int) := by
  by_cases hr : r.method = "OPTIONS"
  · by_cases hp : r.path = "*"
    · rw [serve_asterisk env r i hp hr] at h
      simp only [Outcome.nextIdx, Option.some.injEq] at h
      exact absurd h.symm hne
    · rw [serve_options env r i hp hr] at h
      simp only [Outcome.nextIdx, Option.some.injEq] at h
      exact absurd h.symm hne
  · rw [serve_router env r i hr, mapWriter_nextIdx] at h
    exact router_nextIdx env _ r i j h hne


/-! ## Dispatch of the literal routes -/

theorem router_status (env : Env) (w : ResponseWriter) (b : String)
    (v : List (String × String)) (i : Int) :
    router env w { method := "GET", path := "/status", body := b, vars := v } i =
      statusHandler w { method := "GET", path := "/status", body := b, vars := [] } i := by
  have hc : cleanPath "/status" = "/status" := by rfl
  unfold router routerServeHTTP
  simp only [hc]
  simp [routes, routerMatch, matchExact]

theorem router_repairBay (env : Env) (w : ResponseWriter) (b : String)
    (v : List (String × String)) (i : Int) :
    router env w { method := "GET", path := "/repair-bay", body := b, vars := v } i =
      repairBayHandler env w
        { method := "GET", path := "/repair-bay", body := b, vars := [] } i := by
  have hc : cleanPath "/repair-bay" = "/repair-bay" := by rfl
  unfold router routerServeHTTP
  simp only [hc]
  simp [routes, routerMatch, matchExact]

theorem router_teapot (env : Env) (w : ResponseWriter) (b : String)
    (v : List (String × String)) (i : Int) :
    router env w { method := "POST", path := "/teapot", body := b, vars := v } i =
      teapotHandler w { method := "POST", path := "/teapot", body := b, vars := [] } i := by
  have hc : cleanPath "/teapot" = "/teapot" := by rfl
  unfold router routerServeHTTP
  simp only [hc]
  simp [routes, routerMatch, matchExact]

theorem index_natCast (xs : List String) (n : Nat) (h : n < xs.length) :
    index xs (n : Int) = xs[n]? := by
  unfold index
  rw [if_pos ⟨by omega, by omega⟩]
  simp


/-! ## The responses of the four routes -/

theorem serve_status (env : Env) (b : String) (v : List (String × String)) (i : Int)
    (name : String) (h : index systems i = some name) :
    ∃ w, serve env { method := "GET", path := "/status", body := b, vars := v } i =
        .served w i ∧
      w.finish = { status := 200,
                   header := corsHeaders ++ [("Content-Type", "application/json")],
                   body := Status.Encode { DamagedSystem := name } } := by
  rw [serve_router _ _ _ (by simp), router_status]
  unfold statusHandler
  simp only [h, Outcome.mapWriter]
  refine ⟨_, rfl, ?_⟩
  rw [withCors_finish]
  simp [ResponseWriter.finish, ResponseWriter.Write, ResponseWriter.WriteHeader,
    ResponseWriter.SetHeader, newWriter, headerSet, headerDel, bodyAllowedForStatus,
    Response.addCors]

theorem serve_repairBay (env : Env) (tmpl : Template) (b : String)
    (v : List (String × String)) (i : Int) (code : String)
    (ht : env.ParseFiles = .ok tmpl) (h : index codes i = some code) :
    ∃ w, serve env { method := "GET", path := "/repair-bay", body := b, vars := v } i =
        .served w i ∧
      w.finish.body = renderBody (tmpl.Execute { DamagedSystem := code }) := by
  rw [serve_router _ _ _ (by simp), router_repairBay]
  unfold repairBayHandler
  simp only [ht, h]
  by_cases ho : (tmpl.Execute { DamagedSystem := code }).1 = "" <;>
    cases he : (tmpl.Execute { DamagedSystem := code }).2 <;>
    simp only [ho, he, if_true, if_false, Outcome.mapWriter] <;>
    refine ⟨_, rfl, ?_⟩ <;>
    rw [withCors_finish] <;>
    simp [ResponseWriter.finish, ResponseWriter.Write, ResponseWriter.WriteHeader,
      ResponseWriter.SetHeader, ResponseWriter.DelHeader, httpError, newWriter, headerSet,
      headerDel, headerGet, bodyAllowedForStatus, Response.addCors, renderBody, ho, he,
      corsHeaders]

theorem serve_teapot (env : Env) (b : String) (v : List (String × String)) (i : Int) :
    ∃ w, serve env { method := "POST", path := "/teapot", body := b, vars := v } i =
        .served w i ∧
      w.finish = { status := 418, header := corsHeaders, body := "I'm a teapot" } := by
  rw [serve_router _ _ _ (by simp), router_teapot]
  unfold teapotHandler
  simp only [Outcome.mapWriter]
  refine ⟨_, rfl, ?_⟩
  rw [withCors_finish]
  simp [ResponseWriter.finish, ResponseWriter.Write, ResponseWriter.WriteHeader,
    newWriter, bodyAllowedForStatus, Response.addCors]

theorem serve_setSystemIdx (env : Env) (id b : String) (v : List (String × String))
    (i : Int) (hid : IsDigits id) :
    serve env { method := "PUT", path := "/set-system-idx/" ++ id, body := b, vars := v } i =
      (setSystemIdxHandler
        (newWriter { method := "PUT", path := "/set-system-idx/" ++ id, body := b, vars := v })
        { method := "PUT", path := "/set-system-idx/" ++ id, body := b, vars := [("id", id)] }
        i).mapWriter withCors := by
  rw [serve_router _ _ _ (by simp), router_setSystemIdx env _ _ i id rfl rfl hid]

theorem httpError_finish (r : Request) (msg : String) (code : Nat)
    (hr : r.method ≠ "HEAD") (hcode : bodyAllowedForStatus code = true) :
    (httpError (newWriter r) msg code).finish =
      { status := code,
        header := [("Content-Type", "text/plain; charset=utf-8"),
                   ("X-Content-Type-Options", "nosniff")],
        body := msg ++ "\n" } := by
  simp [ResponseWriter.finish, ResponseWriter.Write, ResponseWriter.WriteHeader,
    ResponseWriter.SetHeader, ResponseWriter.DelHeader, httpError, newWriter, headerSet,
    headerDel, hr, hcode]


theorem index_range_some (xs : List String) (i : Int) (h0 : 0 ≤ i)
    (h1 : i < (xs.length : Int)) : ∃ x, index xs i = some x ∧ xs[i.toNat]? = some x := by
  obtain ⟨n, rfl⟩ := Int.eq_ofNat_of_zero_le h0
  have hn : n < xs.length := by omega
  refine ⟨xs[n], ?_, ?_⟩
  · rw [index_natCast xs n hn]
    exact List.getElem?_eq_getElem hn
  · simp [List.getElem?_eq_getElem hn]

theorem index_some_mem (xs : List String) (i : Int) (x : String)
    (h : index xs i = some x) : x ∈ xs := by
  unfold index at h
  split at h
  · exact List.getElem?_mem h
  · cases h

theorem encode_systems (name : String) (h : name ∈ systems) :
    Status.Encode { DamagedSystem := name } =
      "\x7b\"damaged_system\":\"" ++ name ++ "\"\x7d\n" := by
  simp only [systems, List.mem_cons, List.mem_singleton, List.not_mem_nil, or_false] at h
  rcases h with h | h | h | h | h <;> subst h <;> rfl

theorem router_put_shape (env : Env) (w0 : ResponseWriter) (r : Request)
    (hm : r.method = "PUT") :
    ∃ (w : ResponseWriter) (f : Option Int), ∀ i, router env w0 r i = .served w (f.getD i) := by
  by_cases hp : cleanPath r.path ≠ r.path
  · refine ⟨(w0.SetHeader "Location" (cleanPath r.path)).WriteHeader 301, none, fun i => ?_⟩
    unfold router routerServeHTTP
    simp only []
    rw [if_pos hp]
    rfl
  · cases hmt : routerMatch (routes env) r false with
    | methodMismatch =>
      refine ⟨w0.WriteHeader 405, none, fun i => ?_⟩
      unfold router routerServeHTTP
      simp only []
      rw [if_neg hp, hmt]
      rfl
    | notFound =>
      refine ⟨httpError w0 "404 page not found" 404, none, fun i => ?_⟩
      unfold router routerServeHTTP
      simp only []
      rw [if_neg hp, hmt]
      rfl
    | found hd vars =>
      obtain ⟨rt, hmem, hh, hpath, hmeth⟩ := routerMatch_found _ _ _ _ _ hmt
      rw [hm] at hmeth
      have hrun : ∀ i, router env w0 r i = hd w0 { r with vars := vars } i := by
        intro i
        unfold router routerServeHTTP
        simp only []
        rw [if_neg hp, hmt]
      rcases routes_handler env rt hmem with hr | hr | hr | hr
      · rw [hr.2.1] at hmeth; exact absurd hmeth (by decide)
      · rw [hr.2.1] at hmeth; exact absurd hmeth (by decide)
      · rw [hr.2.1] at hmeth; exact absurd hmeth (by decide)
      · rw [hh, hr.1] at hrun
        cases ha : Atoi (Request.Var { r with vars := vars } "id") with
        | error e =>
          refine ⟨httpError w0 e 500, none, fun i => ?_⟩
          rw [hrun]
          unfold setSystemIdxHandler
          rw [ha]
          rfl
        | ok n =>
          by_cases hn : n < 0 ∨ n > (systems.length : Int) - 1
          · refine ⟨httpError w0 "ID doesn't exist" 500, none, fun i => ?_⟩
            rw [hrun]
            unfold setSystemIdxHandler
            rw [ha]
            simp only []
            rw [if_pos hn]
            rfl
          · refine ⟨w0.WriteHeader 204, some n, fun i => ?_⟩
            rw [hrun]
            unfold setSystemIdxHandler
            rw [ha]
            simp only []
            rw [if_neg hn]
            rfl

theorem serve_put_shape (env : Env) (r : Request) (hm : r.method = "PUT") :
    ∃ (w : ResponseWriter) (f : Option Int), ∀ i, serve env r i = .served w (f.getD i) := by
  obtain ⟨w, f, h⟩ := router_put_shape env (newWriter r) r hm
  refine ⟨withCors w, f, fun i => ?_⟩
  rw [serve_router env r i (by rw [hm]; decide), h i]
  rfl

theorem router_signed (env : Env) (w : ResponseWriter) (r : Request) (i : Int)
    (c : Char) (ds : List Char) (hc : c = '+' ∨ c = '-')
    (hds : ∀ d ∈ ds, d.isDigit = true)
    (hp : r.path = "/set-system-idx/" ++ String.mk (c :: ds)) :
    router env w r i = .served (httpError w "404 page not found" 404) i := by
  have hslash : ∀ x ∈ c :: ds, x ≠ '/' := by
    intro x hx
    rcases List.mem_cons.1 hx with h | h
    · subst h; rcases hc with h | h <;> rw [h] <;> decide
    · exact isDigit_ne_slash _ (hds _ h)
  have hcdot : c ≠ '.' := by rcases hc with h | h <;> rw [h] <;> decide
  have hclean := cleanPath_setSystemIdx_elem (c :: ds) hslash (by simp)
    (by intro h; injection h with h1 _; exact hcdot h1)
    (by intro h; injection h with h1 _; exact hcdot h1)
  rw [mk_prefix_append] at hclean
  have hnd : c.isDigit = false := by rcases hc with h | h <;> rw [h] <;> decide
  have hset : matchSetSystemIdx ("/set-system-idx/" ++ String.mk (c :: ds)) = none := by
    cases hm : matchSetSystemIdx ("/set-system-idx/" ++ String.mk (c :: ds)) with
    | none => rfl
    | some vars =>
      obtain ⟨id, hid, hpid, -⟩ := (matchSetSystemIdx_some _ _).1 hm
      have hdata := congrArg String.data hpid
      rw [String.data_append, String.data_append] at hdata
      have hcd : c :: ds = id.data := List.append_cancel_left hdata
      have h2 := hid.2
      rw [String.toList, ← hcd] at h2
      simp [hnd] at h2
  obtain ⟨h1, h2, h3⟩ := matchExact_setSystemIdx (String.mk (c :: ds))
  unfold router routerServeHTTP
  simp only []
  rw [if_neg (by rw [hp, hclean]; simp)]
  simp [routes, routerMatch, hp, h1, h2, h3, hset]


/-! ## The index stays in range and no handler panics -/

theorem reachable_range (i : Int) (h : Reachable i) : 0 ≤ i ∧ i ≤ 4 := by
  induction h with
  | init => decide
  | step env r i j _ hs ih =>
    by_cases hji : j = i
    · rw [hji]; exact ih
    · obtain ⟨-, id, -, -, h4, hj⟩ := serve_nextIdx env r i j hs hji
      omega

theorem statusHandler_no_panic (w : ResponseWriter) (r : Request) (i j : Int)
    (h0 : 0 ≤ i) (h4 : i ≤ 4) : statusHandler w r i ≠ .panicked j := by
  obtain ⟨name, hn, -⟩ := index_range_some systems i h0 (by simp [systems]; omega)
  unfold statusHandler
  simp [hn]

theorem repairBayHandler_no_panic (env : Env) (w : ResponseWriter) (r : Request) (i j : Int)
    (h0 : 0 ≤ i) (h4 : i ≤ 4) : repairBayHandler env w r i ≠ .panicked j := by
  obtain ⟨code, hc, -⟩ := index_range_some codes i h0 (by simp [codes]; omega)
  unfold repairBayHandler
  cases hp : env.ParseFiles with
  | error e => simp
  | ok tmpl =>
    cases he : (tmpl.Execute { DamagedSystem := code }).2 <;> simp [hc, he]

theorem setSystemIdxHandler_no_panic (w : ResponseWriter) (r : Request) (i j : Int) :
    setSystemIdxHandler w r i ≠ .panicked j := by
  unfold setSystemIdxHandler
  cases Atoi (r.Var "id") with
  | error e => simp
  | ok n => by_cases hn : n < 0 ∨ n > (systems.length : Int) - 1 <;> simp [hn]

theorem router_no_panic (env : Env) (w : ResponseWriter) (r : Request) (i j : Int)
    (h0 : 0 ≤ i) (h4 : i ≤ 4) : router env w r i ≠ .panicked j := by
  unfold router routerServeHTTP
  simp only []
  by_cases hp : cleanPath r.path ≠ r.path
  · rw [if_pos hp]; simp
  · rw [if_neg hp]
    cases hm : routerMatch (routes env) r false with
    | methodMismatch => simp
    | notFound => simp
    | found hd vars =>
      obtain ⟨rt, hmem, hh, -, -⟩ := routerMatch_found _ _ _ _ _ hm
      simp only []
      rcases routes_handler env rt hmem with hr | hr | hr | hr <;> rw [hh, hr.1]
      · exact statusHandler_no_panic _ _ _ _ h0 h4
      · exact repairBayHandler_no_panic _ _ _ _ _ h0 h4
      · simp [teapotHandler]
      · exact setSystemIdxHandler_no_panic _ _ _ _

theorem serve_no_panic (env : Env) (r : Request) (i j : Int)
    (h0 : 0 ≤ i) (h4 : i ≤ 4) : serve env r i ≠ .panicked j := by
  by_cases hr : r.method = "OPTIONS"
  · by_cases hp : r.path = "*"
    · rw [serve_asterisk env r i hp hr]; simp
    · rw [serve_options env r i hp hr]; simp
  · rw [serve_router env r i hr]
    intro h
    cases ho : router env (newWriter r) r i with
    | served w k => rw [ho] at h; simp [Outcome.mapWriter] at h
    | panicked k => exact router_no_panic env _ r i k h0 h4 ho
    | exited => rw [ho] at h; simp [Outcome.mapWriter] at h


theorem serve_setSystemIdx_digits (env : Env) (id b : String)
    (v : List (String × String)) (i : Int) (hid : IsDigits id) :
    serve env (putSetSystemIdx id b v) i =
      if decVal id < 2 ^ 63 then
        if decVal id ≤ 4 then
          .served (withCors ((newWriter (putSetSystemIdx id b v)).WriteHeader 204)) (decVal id)
        else
          .served (withCors (httpError (newWriter (putSetSystemIdx id b v))
            "ID doesn't exist" 500)) i
      else
        .served (withCors (httpError (newWriter (putSetSystemIdx id b v))
          (NumError.range.text "Atoi" id) 500)) i := by
  unfold putSetSystemIdx
  rw [serve_setSystemIdx env id b v i hid, setSystemIdxHandler_digits _
      { method := "PUT", path := "/set-system-idx/" ++ id, body := b, vars := [("id", id)] }
      i id rfl hid]
  by_cases h1 : decVal id < 2 ^ 63
  · rw [if_pos h1, if_pos h1]
    by_cases h2 : decVal id ≤ 4
    · rw [if_pos h2, if_pos h2]; rfl
    · rw [if_neg h2, if_neg h2]; rfl
  · rw [if_neg h1, if_neg h1]; rfl

theorem Atoi_ok_iff (id : String) (n : Int) (hid : IsDigits id) :
    Atoi id = .ok n ↔ decVal id < 2 ^ 63 ∧ n = (decVal id : Int) := by
  rw [Atoi_digits id hid]
  by_cases h : decVal id < 2 ^ 63
  · rw [if_pos h]
    constructor
    · intro h1; injection h1 with h1; exact ⟨h, h1.symm⟩
    · rintro ⟨-, h1⟩; rw [h1]
  · rw [if_neg h]
    constructor
    · intro h1; cases h1
    · rintro ⟨h1, -⟩; exact absurd h1 h

theorem Atoi_error_iff (id e : String) (hid : IsDigits id) :
    Atoi id = .error e ↔ 2 ^ 63 ≤ decVal id ∧ e = NumError.range.text "Atoi" id := by
  rw [Atoi_digits id hid]
  by_cases h : decVal id < 2 ^ 63
  · rw [if_pos h]
    constructor
    · intro h1; cases h1
    · rintro ⟨h1, -⟩; omega
  · rw [if_neg h]
    constructor
    · intro h1; injection h1 with h1; exact ⟨by omega, h1.symm⟩
    · rintro ⟨-, h1⟩; rw [h1]

theorem put_error_finish (id b : String) (v : List (String × String)) (msg : String) :
    (withCors (httpError (newWriter (putSetSystemIdx id b v)) msg 500)).finish =
      { status := 500,
        header := corsHeaders ++ [("Content-Type", "text/plain; charset=utf-8"),
                   ("X-Content-Type-Options", "nosniff")],
        body := msg ++ "\n" } := by
  rw [withCors_finish, httpError_finish _ _ _ (by simp [putSetSystemIdx]) (by decide)]
  rfl

theorem range_text_ne (id : String) :
    NumError.range.text "Atoi" id ≠ "ID doesn't exist" := by
  intro h
  have h1 := congrArg (fun s => s.data.head?) h
  simp [NumError.text, String.data_append] at h1

theorem range_text_eq (id : String) :
    NumError.range.text "Atoi" id =
      "strconv.Atoi: parsing " ++ quote id ++ ": value out of range" := by
  apply String.ext
  simp [NumError.text, String.data_append]

theorem serve_signed (env : Env) (c : Char) (ds : List Char) (b : String)
    (v : List (String × String)) (i : Int) (hc : c = '+' ∨ c = '-')
    (hds : ∀ d ∈ ds, d.isDigit = true) :
    ∃ w, serve env (putSetSystemIdx (String.mk (c :: ds)) b v) i = .served w i ∧
      w.finish.status = 404 := by
  rw [serve_router _ _ _ (by simp [putSetSystemIdx]),
    router_signed env _ (putSetSystemIdx (String.mk (c :: ds)) b v) i c ds hc hds rfl]
  refine ⟨_, rfl, ?_⟩
  rw [withCors_finish, httpError_finish _ _ _ (by simp [putSetSystemIdx]) (by decide)]
  rfl

theorem headerGet_addCors (resp : Response) :
    headerGet resp.addCors.header "Access-Control-Allow-Origin" = some "*" ∧
    headerGet resp.addCors.header "Access-Control-Allow-Methods"
      = some "GET, POST, PUT, DELETE, OPTIONS" ∧
    headerGet resp.addCors.header "Access-Control-Allow-Headers"
      = some "Content-Type, Authorization" := by
  simp [headerGet, Response.addCors, corsHeaders, List.lookup]

theorem serve_response_addCors (env : Env) (r : Request) (i : Int) (resp : Response)
    (hrc : ¬ (r.path = "*" ∧ r.method = "OPTIONS"))
    (h : (serve env r i).response = some resp) : ∃ inner : Response, resp = inner.addCors := by
  by_cases hr : r.method = "OPTIONS"
  · rw [serve_options env r i (fun hp => hrc ⟨hp, hr⟩) hr, withCors_WriteHeader] at h
    simp only [Outcome.response, Option.some.injEq, withCors_finish] at h
    exact ⟨_, h.symm⟩
  · rw [serve_router env r i hr, mapWriter_response] at h
    cases ho : (router env (newWriter r) r i).response with
    | none => rw [ho] at h; cases h
    | some inner =>
      rw [ho] at h
      simp only [Option.map_some', Option.some.injEq] at h
      exact ⟨inner, h.symm⟩

theorem router_put_env (env1 env2 : Env) (w : ResponseWriter) (r : Request) (i : Int)
    (hm : r.method = "PUT") : router env1 w r i = router env2 w r i := by
  unfold router routerServeHTTP
  simp only [routes, routerMatch, hm]
  by_cases hp : cleanPath r.path ≠ r.path
  · rw [if_pos hp, if_pos hp]
  · rw [if_neg hp, if_neg hp]
    cases matchExact "/status" r.path <;> cases matchExact "/repair-bay" r.path <;>
      cases matchExact "/teapot" r.path <;> cases matchSetSystemIdx r.path <;> simp

theorem serve_put_env (env1 env2 : Env) (r : Request) (i : Int) (hm : r.method = "PUT") :
    serve env1 r i = serve env2 r i := by
  rw [serve_router env1 r i (by rw [hm]; decide), serve_router env2 r i (by rw [hm]; decide),
    router_put_env env1 env2 _ r i hm]

/-! ## The claims -/

/-- C1: for every starting state `i` and every id matching `[0-9]+` whose decimal value
is in [0, 4], `PUT /set-system-idx/{id}` is answered with 204 and an empty body and
leaves `systemIdx` at the value of id; a following `GET /status` then returns the name
`systems[id]`, and a following `GET /repair-bay` (the template file parsing to `tmpl`)
answers with the result of executing `tmpl` on the code `codes[id]`. -/
theorem put_valid_id_sets_index (env env2 : Env) (tmpl : Template) (id body : String)
    (vars : List (String × String)) (i : Int)
    (hid : IsDigits id) (hv : decVal id ≤ 4) (ht : env2.ParseFiles = .ok tmpl) :
    (∃ w, serve env (putSetSystemIdx id body vars) i = .served w (decVal id) ∧
        w.finish = { status := 204, header := corsHeaders, body := "" }) ∧
    (∃ name, systems[decVal id]? = some name ∧ ∀ b v, ∃ w,
        serve env2 (getStatus b v) (decVal id) = .served w (decVal id) ∧
        w.finish = { status := 200,
                     header := corsHeaders ++ [("Content-Type", "application/json")],
                     body := "\x7b\"damaged_system\":\"" ++ name ++ "\"\x7d\n" }) ∧
    (∃ code, codes[decVal id]? = some code ∧ ∀ b v, ∃ w,
        serve env2 (getRepairBay b v) (decVal id) = .served w (decVal id) ∧
        w.finish.body = renderBody (tmpl.Execute { DamagedSystem := code })) := by
  refine ⟨?_, ?_, ?_⟩
  · rw [serve_setSystemIdx_digits env id body vars i hid, if_pos (by omega), if_pos hv]
    refine ⟨_, rfl, ?_⟩
    rw [withCors_finish]
    simp [ResponseWriter.finish, ResponseWriter.WriteHeader, newWriter, Response.addCors,
      putSetSystemIdx]
  · obtain ⟨name, hn, hget⟩ :=
      index_range_some systems (decVal id) (by omega) (by simp [systems]; omega)
    refine ⟨name, by simpa using hget, fun b v => ?_⟩
    obtain ⟨w, hw, hf⟩ := serve_status env2 b v (decVal id) name hn
    rw [encode_systems name (index_some_mem _ _ _ hn)] at hf
    exact ⟨w, hw, hf⟩
  · obtain ⟨code, hn, hget⟩ :=
      index_range_some codes (decVal id) (by omega) (by simp [codes]; omega)
    exact ⟨code, by simpa using hget, fun b v => serve_repairBay env2 tmpl b v _ code ht hn⟩

/-- C1 at id = "1" from the initial state: the index becomes 1, whose name is
"communications" and whose code is "COM-02". -/
theorem put_valid_id_sets_index_witness :
    IsDigits "1" ∧ decVal "1" ≤ 4 ∧ sampleEnv.ParseFiles = .ok sampleTemplate ∧
    ((∃ w, serve sampleEnv (putSetSystemIdx "1" "" []) 3 = .served w (decVal "1") ∧
        w.finish = { status := 204, header := corsHeaders, body := "" }) ∧
    (∃ name, systems[decVal "1"]? = some name ∧ ∀ b v, ∃ w,
        serve sampleEnv (getStatus b v) (decVal "1") = .served w (decVal "1") ∧
        w.finish = { status := 200,
                     header := corsHeaders ++ [("Content-Type", "application/json")],
                     body := "\x7b\"damaged_system\":\"" ++ name ++ "\"\x7d\n" }) ∧
    (∃ code, codes[decVal "1"]? = some code ∧ ∀ b v, ∃ w,
        serve sampleEnv (getRepairBay b v) (decVal "1") = .served w (decVal "1") ∧
        w.finish.body = renderBody (sampleTemplate.Execute { DamagedSystem := code }))) ∧
    systems[decVal "1"]? = some "communications" ∧ codes[decVal "1"]? = some "COM-02" :=
  ⟨by decide, by decide, rfl,
    put_valid_id_sets_index sampleEnv sampleEnv sampleTemplate "1" "" [] 3
      (by decide) (by decide) rfl,
    by decide, by decide⟩


/-- C2, as stated, fails in the initial state: the body `GET /status` returns is not
exactly the JSON object, it is the object followed by a line feed. -/
theorem status_body_not_bare_object :
    (serve sampleEnv (getStatus "" []) initSystemIdx).response.map (fun resp => resp.body)
        = some "\x7b\"damaged_system\":\"engines\"\x7d\n" ∧
    (serve sampleEnv (getStatus "" []) initSystemIdx).response.map (fun resp => resp.body)
        ≠ some "\x7b\"damaged_system\":\"engines\"\x7d" := by
  constructor <;> decide

/-- C2, amended: in every state whose index `i` selects a name `systems[i]`,
`GET /status` is answered with 200, `Content-Type: application/json` and the body
`{"damaged_system":"<name>"}` followed by a line feed, and leaves the index as it is; in
the initial state (index 3) the body is `{"damaged_system":"engines"}` followed by a line
feed. -/
theorem status_reports_current_system (env : Env) (b : String)
    (v : List (String × String)) (i : Int) (name : String)
    (hname : index systems i = some name) :
    (∃ w, serve env (getStatus b v) i = .served w i ∧
      w.finish = { status := 200,
                   header := corsHeaders ++ [("Content-Type", "application/json")],
                   body := "\x7b\"damaged_system\":\"" ++ name ++ "\"\x7d\n" } ∧
      headerGet w.finish.header "Content-Type" = some "application/json") ∧
    (∃ w, serve env (getStatus b v) initSystemIdx = .served w initSystemIdx ∧
      w.finish.status = 200 ∧
      w.finish.body = "\x7b\"damaged_system\":\"engines\"\x7d\n") := by
  constructor
  · obtain ⟨w, hw, hf⟩ := serve_status env b v i name hname
    rw [encode_systems name (index_some_mem _ _ _ hname)] at hf
    refine ⟨w, hw, hf, ?_⟩
    rw [hf]
    rfl
  · obtain ⟨w, hw, hf⟩ := serve_status env b v initSystemIdx "engines" (by decide)
    refine ⟨w, hw, ?_, ?_⟩
    · rw [hf]
    · rw [hf]; rfl

/-- C2, amended, at index 0, whose name is "navigation". -/
theorem status_reports_current_system_witness :
    index systems 0 = some "navigation" ∧
    ((∃ w, serve sampleEnv (getStatus "" []) 0 = .served w 0 ∧
      w.finish = { status := 200,
                   header := corsHeaders ++ [("Content-Type", "application/json")],
                   body := "\x7b\"damaged_system\":\"" ++ "navigation" ++ "\"\x7d\n" } ∧
      headerGet w.finish.header "Content-Type" = some "application/json") ∧
    (∃ w, serve sampleEnv (getStatus "" []) initSystemIdx = .served w initSystemIdx ∧
      w.finish.status = 200 ∧
      w.finish.body = "\x7b\"damaged_system\":\"engines\"\x7d\n")) :=
  ⟨by decide, status_reports_current_system sampleEnv "" [] 0 "navigation" (by decide)⟩

/-- C3, as stated, fails at id = "5" in the initial state: the status is 500 and the
index stays 3, but the body is not exactly `ID doesn't exist`, it is that text followed
by a line feed. -/
theorem out_of_range_body_not_bare_text :
    serve sampleEnv (putSetSystemIdx "5" "" []) 3 =
        .served (withCors (httpError (newWriter (putSetSystemIdx "5" "" []))
          "ID doesn't exist" 500)) 3 ∧
    (serve sampleEnv (putSetSystemIdx "5" "" []) 3).response.map (fun resp => resp.body)
        = some "ID doesn't exist\n" ∧
    (serve sampleEnv (putSetSystemIdx "5" "" []) 3).response.map (fun resp => resp.body)
        ≠ some "ID doesn't exist" := by
  refine ⟨?_, ?_, ?_⟩ <;> decide

/-- C3, amended: for every starting state `i` and every id matching `[0-9]+` that
`Atoi` parses to an integer `n` outside [0, N-1], `PUT /set-system-idx/{id}` is answered
with status 500 and the body `ID doesn't exist` followed by a line feed, and leaves the
index at `i`. -/
theorem put_out_of_range_id (env : Env) (id body : String) (vars : List (String × String))
    (i n : Int) (hid : IsDigits id) (hparse : Atoi id = .ok n)
    (hout : n < 0 ∨ n > (systems.length : Int) - 1) :
    ∃ w, serve env (putSetSystemIdx id body vars) i = .served w i ∧
      w.finish = { status := 500,
                   header := corsHeaders ++ [("Content-Type", "text/plain; charset=utf-8"),
                     ("X-Content-Type-Options", "nosniff")],
                   body := "ID doesn't exist\n" } := by
  obtain ⟨h1, h2⟩ := (Atoi_ok_iff id n hid).1 hparse
  have h3 : ¬ decVal id ≤ 4 := by
    simp only [systems, List.length_cons, List.length_nil] at hout
    omega
  rw [serve_setSystemIdx_digits env id body vars i hid, if_pos h1, if_neg h3]
  exact ⟨_, rfl, put_error_finish id body vars "ID doesn't exist"⟩

/-- C3, amended, at id = "5" in the initial state. -/
theorem put_out_of_range_id_witness :
    IsDigits "5" ∧ Atoi "5" = .ok 5 ∧ ((5 : Int) < 0 ∨ (5 : Int) > (systems.length : Int) - 1) ∧
    ∃ w, serve sampleEnv (putSetSystemIdx "5" "" []) 3 = .served w 3 ∧
      w.finish = { status := 500,
                   header := corsHeaders ++ [("Content-Type", "text/plain; charset=utf-8"),
                     ("X-Content-Type-Options", "nosniff")],
                   body := "ID doesn't exist\n" } :=
  ⟨by decide, rfl, by decide,
    put_out_of_range_id sampleEnv "5" "" [] 3 5 (by decide) rfl (by decide)⟩


/-- C4, as stated, fails at id = "99999999999999999999" in the initial state: `Atoi`
fails with the text shown, the status is 500 and the index stays 3, but the body is not
exactly the error text, it is that text followed by a line feed. -/
theorem parse_error_body_not_bare_text :
    Atoi "99999999999999999999" =
        .error "strconv.Atoi: parsing \"99999999999999999999\": value out of range" ∧
    (serve sampleEnv (putSetSystemIdx "99999999999999999999" "" []) 3).nextIdx = some 3 ∧
    (serve sampleEnv (putSetSystemIdx "99999999999999999999" "" []) 3).response.map
        (fun resp => (resp.status, resp.body))
      = some (500, "strconv.Atoi: parsing \"99999999999999999999\": value out of range\n") ∧
    (serve sampleEnv (putSetSystemIdx "99999999999999999999" "" []) 3).response.map
        (fun resp => resp.body)
      ≠ some "strconv.Atoi: parsing \"99999999999999999999\": value out of range" := by
  refine ⟨rfl, ?_, ?_, ?_⟩ <;> decide

/-- C4, amended: for every starting state `i` and every id matching `[0-9]+` on which
`Atoi` fails with the error text `e` (the value of id is then at least 2^63, too large
for the 64-bit `int`), `PUT /set-system-idx/{id}` is answered with status 500 and the
body `e` followed by a line feed, where `e` is the out-of-range text of `strconv` and
not `ID doesn't exist`, and leaves the index at `i`. -/
theorem put_unparsable_id (env : Env) (id body : String) (vars : List (String × String))
    (i : Int) (e : String) (hid : IsDigits id) (hfail : Atoi id = .error e) :
    (∃ w, serve env (putSetSystemIdx id body vars) i = .served w i ∧
      w.finish = { status := 500,
                   header := corsHeaders ++ [("Content-Type", "text/plain; charset=utf-8"),
                     ("X-Content-Type-Options", "nosniff")],
                   body := e ++ "\n" }) ∧
    e = "strconv.Atoi: parsing " ++ quote id ++ ": value out of range" ∧
    e ≠ "ID doesn't exist" ∧ 2 ^ 63 ≤ decVal id := by
  obtain ⟨h1, h2⟩ := (Atoi_error_iff id e hid).1 hfail
  refine ⟨?_, ?_, ?_, h1⟩
  · rw [serve_setSystemIdx_digits env id body vars i hid, if_neg (by omega), h2]
    exact ⟨_, rfl, put_error_finish id body vars _⟩
  · rw [h2]; exact range_text_eq id
  · rw [h2]; exact range_text_ne id

/-- C4, amended, at id = "99999999999999999999" in the initial state. -/
theorem put_unparsable_id_witness :
    IsDigits "99999999999999999999" ∧
    Atoi "99999999999999999999" =
      .error "strconv.Atoi: parsing \"99999999999999999999\": value out of range" ∧
    ((∃ w, serve sampleEnv (putSetSystemIdx "99999999999999999999" "" []) 3 = .served w 3 ∧
      w.finish = { status := 500,
                   header := corsHeaders ++ [("Content-Type", "text/plain; charset=utf-8"),
                     ("X-Content-Type-Options", "nosniff")],
                   body := "strconv.Atoi: parsing \"99999999999999999999\": value out of range"
                     ++ "\n" }) ∧
    "strconv.Atoi: parsing \"99999999999999999999\": value out of range" =
      "strconv.Atoi: parsing " ++ quote "99999999999999999999" ++ ": value out of range" ∧
    "strconv.Atoi: parsing \"99999999999999999999\": value out of range"
      ≠ "ID doesn't exist" ∧
    2 ^ 63 ≤ decVal "99999999999999999999") :=
  ⟨by decide, rfl,
    put_unparsable_id sampleEnv "99999999999999999999" "" [] 3
      "strconv.Atoi: parsing \"99999999999999999999\": value out of range" (by decide) rfl⟩


/-- C5: the index after a request differs from the index before it only if the request
is a PUT to `/set-system-idx/{id}` whose id matches `[0-9]+` and has a value in
[0, N-1] (the new index is that value); a PUT whose id has the value N gets status 500
and leaves the index unchanged, a PUT whose id starts with a sign character matches no
route, gets status 404 and leaves the index unchanged, and `GET /status`,
`GET /repair-bay` and `POST /teapot` leave the index unchanged. -/
theorem only_set_index_mutates (env : Env) (i : Int) :
    (∀ r j, (serve env r i).nextIdx = some j → j ≠ i →
      r.method = "PUT" ∧ ∃ id, IsDigits id ∧ r.path = "/set-system-idx/" ++ id ∧
        decVal id ≤ systems.length - 1 ∧ j = (decVal id : Int)) ∧
    (∀ id b v, IsDigits id → decVal id = systems.length →
      ∃ w, serve env (putSetSystemIdx id b v) i = .served w i ∧ w.finish.status = 500) ∧
    (∀ c ds b v, c = '+' ∨ c = '-' → (∀ d ∈ ds, d.isDigit = true) →
      ∃ w, serve env (putSetSystemIdx (String.mk (c :: ds)) b v) i = .served w i ∧
        w.finish.status = 404) ∧
    (∀ b v j, (serve env (getStatus b v) i).nextIdx = some j → j = i) ∧
    (∀ b v j, (serve env (getRepairBay b v) i).nextIdx = some j → j = i) ∧
    (∀ b v j, (serve env (postTeapot b v) i).nextIdx = some j → j = i) := by
  have frame : ∀ r j, r.method ≠ "PUT" → (serve env r i).nextIdx = some j → j = i := by
    intro r j hr h
    by_contra hne
    exact hr (serve_nextIdx env r i j h hne).1
  refine ⟨?_, ?_, ?_, ?_, ?_, ?_⟩
  · intro r j h hne
    obtain ⟨hm, id, hid, hp, h4, hj⟩ := serve_nextIdx env r i j h hne
    exact ⟨hm, id, hid, hp, by simpa [systems] using h4, hj⟩
  · intro id b v hid hN
    simp only [systems, List.length_cons, List.length_nil] at hN
    rw [serve_setSystemIdx_digits env id b v i hid, if_pos (by omega), if_neg (by omega)]
    refine ⟨_, rfl, ?_⟩
    rw [put_error_finish]
  · intro c ds b v hc hds
    exact serve_signed env c ds b v i hc hds
  · intro b v j h
    exact frame _ j (by simp [getStatus]) h
  · intro b v j h
    exact frame _ j (by simp [getRepairBay]) h
  · intro b v j h
    exact frame _ j (by simp [postTeapot]) h

/-- C5 in the initial state: the PUT with id "1" is one that changes the index; the PUTs
with id "5" and with id "-1" get an error status and leave the index at 3. -/
theorem only_set_index_mutates_witness :
    ((putSetSystemIdx "1" "" []).method = "PUT" ∧
      ∃ id, IsDigits id ∧ (putSetSystemIdx "1" "" []).path = "/set-system-idx/" ++ id ∧
        decVal id ≤ systems.length - 1 ∧ (1 : Int) = (decVal id : Int)) ∧
    (∃ w, serve sampleEnv (putSetSystemIdx "5" "" []) 3 = .served w 3 ∧
      w.finish.status = 500) ∧
    (∃ w, serve sampleEnv (putSetSystemIdx (String.mk ('-' :: ['1'])) "" []) 3 = .served w 3 ∧
      w.finish.status = 404) :=
  ⟨(only_set_index_mutates sampleEnv 3).1 (putSetSystemIdx "1" "" []) 1 (by decide) (by decide),
    (only_set_index_mutates sampleEnv 3).2.1 "5" "" [] (by decide) (by decide),
    (only_set_index_mutates sampleEnv 3).2.2.1 '-' ['1'] "" [] (Or.inr rfl) (by decide)⟩

/-- C6, as stated, fails on the asterisk-form request `OPTIONS *` (here in the initial
state): the server answers it itself, without calling `rc`, with status 200, the single
header `Content-Length: 0` and an empty body, so the response carries none of the three
CORS headers. -/
theorem options_asterisk_without_cors :
    (serve sampleEnv { method := "OPTIONS", path := "*", body := "", vars := [] }
        initSystemIdx).response
      = some { status := 200, header := [("Content-Length", "0")], body := "" } ∧
    headerGet [("Content-Length", "0")] "Access-Control-Allow-Origin" = none ∧
    headerGet [("Content-Length", "0")] "Access-Control-Allow-Methods" = none ∧
    headerGet [("Content-Length", "0")] "Access-Control-Allow-Headers" = none := by
  refine ⟨?_, ?_, ?_, ?_⟩ <;> decide

/-- C6, amended: every response to a request that the server hands to its handler `rc`,
that is to every request other than the asterisk-form `OPTIONS *`, carries the three CORS
headers with the values `*`, `GET, POST, PUT, DELETE, OPTIONS` and
`Content-Type, Authorization`, for every method, every path and every state: error
responses of the handlers, requests that match no route and OPTIONS requests on a path
included. -/
theorem cors_headers_on_handler_responses (env : Env) (r : Request) (i : Int)
    (resp : Response) (hrc : ¬ (r.path = "*" ∧ r.method = "OPTIONS"))
    (h : (serve env r i).response = some resp) :
    headerGet resp.header "Access-Control-Allow-Origin" = some "*" ∧
    headerGet resp.header "Access-Control-Allow-Methods"
      = some "GET, POST, PUT, DELETE, OPTIONS" ∧
    headerGet resp.header "Access-Control-Allow-Headers"
      = some "Content-Type, Authorization" := by
  obtain ⟨inner, rfl⟩ := serve_response_addCors env r i resp hrc h
  exact headerGet_addCors inner

/-- C6, amended, on a request that matches no route: the 404 response carries the
headers. -/
theorem cors_headers_on_handler_responses_witness :
    ¬ ((Request.mk "DELETE" "/nowhere" "" []).path = "*" ∧
        (Request.mk "DELETE" "/nowhere" "" []).method = "OPTIONS") ∧
    (serve sampleEnv { method := "DELETE", path := "/nowhere", body := "", vars := [] }
        3).response
      = some { status := 404,
               header := corsHeaders ++ [("Content-Type", "text/plain; charset=utf-8"),
                 ("X-Content-Type-Options", "nosniff")],
               body := "404 page not found\n" } ∧
    headerGet (corsHeaders ++ [("Content-Type", "text/plain; charset=utf-8"),
        ("X-Content-Type-Options", "nosniff")]) "Access-Control-Allow-Origin" = some "*" ∧
    headerGet (corsHeaders ++ [("Content-Type", "text/plain; charset=utf-8"),
        ("X-Content-Type-Options", "nosniff")]) "Access-Control-Allow-Methods"
      = some "GET, POST, PUT, DELETE, OPTIONS" ∧
    headerGet (corsHeaders ++ [("Content-Type", "text/plain; charset=utf-8"),
        ("X-Content-Type-Options", "nosniff")]) "Access-Control-Allow-Headers"
      = some "Content-Type, Authorization" :=
  ⟨by decide, by decide,
    cors_headers_on_handler_responses sampleEnv
      { method := "DELETE", path := "/nowhere", body := "", vars := [] } 3
      { status := 404,
        header := corsHeaders ++ [("Content-Type", "text/plain; charset=utf-8"),
          ("X-Content-Type-Options", "nosniff")],
        body := "404 page not found\n" } (by decide) (by decide)⟩

/-- C7: on a request whose method is OPTIONS, whatever the path, the state and the
downstream handler `next`, `routesConfig` answers 200 with the three CORS headers and an
empty body, leaves the index unchanged and does not run `next`; on a request with any
other method it hands the writer with the three CORS headers to `next`, and with the
router of `main` as `next` the response is the response of the router alone with the
three CORS headers added, and the resulting index is that of the router. -/
theorem cors_middleware (next : Handler) (env : Env) (r : Request) (i : Int) :
    (r.method = "OPTIONS" →
      ∃ w, routesConfig next (newWriter r) r i = .served w i ∧
        w.finish = { status := 200, header := corsHeaders, body := "" }) ∧
    (r.method ≠ "OPTIONS" →
      routesConfig next (newWriter r) r i = next (withCors (newWriter r)) r i ∧
      (serve env r i).response =
        (router env (newWriter r) r i).response.map Response.addCors ∧
      (serve env r i).nextIdx = (router env (newWriter r) r i).nextIdx) := by
  constructor
  · intro hr
    refine ⟨(withCors (newWriter r)).WriteHeader 200, ?_, ?_⟩
    · unfold routesConfig
      simp only [newWriter_cors, hr, if_true]
    · rw [withCors_WriteHeader, withCors_finish]
      simp [ResponseWriter.finish, ResponseWriter.WriteHeader, newWriter, Response.addCors]
  · intro hr
    refine ⟨?_, ?_, ?_⟩
    · unfold routesConfig
      simp only [newWriter_cors, hr, if_false]
    · rw [serve_router env r i hr, mapWriter_response]
    · rw [serve_router env r i hr, mapWriter_nextIdx]

/-- C7 on `OPTIONS /set-system-idx/1` with the set-index handler downstream (the index
stays 3), and on `PUT /set-system-idx/1` through the router. -/
theorem cors_middleware_witness :
    (∃ w, routesConfig setSystemIdxHandler
          (newWriter { method := "OPTIONS", path := "/set-system-idx/1", body := "",
                       vars := [("id", "1")] })
          { method := "OPTIONS", path := "/set-system-idx/1", body := "",
            vars := [("id", "1")] } 3 = .served w 3 ∧
        w.finish = { status := 200, header := corsHeaders, body := "" }) ∧
    (serve sampleEnv (putSetSystemIdx "1" "" []) 3).response =
        (router sampleEnv (newWriter (putSetSystemIdx "1" "" [])) (putSetSystemIdx "1" "" [])
          3).response.map Response.addCors ∧
    (serve sampleEnv (putSetSystemIdx "1" "" []) 3).nextIdx = some 1 :=
  ⟨(cors_middleware setSystemIdxHandler sampleEnv
      { method := "OPTIONS", path := "/set-system-idx/1", body := "", vars := [("id", "1")] }
      3).1 rfl,
    ((cors_middleware setSystemIdxHandler sampleEnv (putSetSystemIdx "1" "" []) 3).2
      (by decide)).2.1,
    by decide⟩

/-- C8: in every state and for every request body, `POST /teapot` is answered with
status 418 and the body `I'm a teapot`; the response is the same in every state, and the
index is left unchanged. -/
theorem teapot_always_418 (env : Env) (body : String) (vars : List (String × String))
    (i : Int) :
    ∃ w, serve env (postTeapot body vars) i = .served w i ∧
      w.finish = { status := 418, header := corsHeaders, body := "I'm a teapot" } :=
  serve_teapot env body vars i

/-- C9: `systems` and `codes` both have length N = 5, and in every state `i` reachable
from the initial state by any sequence of requests the index lies in [0, N-1], so that
`systems[i]` and `codes[i]` are defined and no request makes a handler panic. -/
theorem index_always_in_range (i : Int) (h : Reachable i) :
    systems.length = 5 ∧ codes.length = systems.length ∧
    (0 ≤ i ∧ i ≤ (systems.length : Int) - 1) ∧
    (∃ name, index systems i = some name) ∧
    (∃ code, index codes i = some code) ∧
    ∀ env r j, serve env r i ≠ .panicked j := by
  obtain ⟨h0, h4⟩ := reachable_range i h
  obtain ⟨name, hn, -⟩ := index_range_some systems i h0 (by simp [systems]; omega)
  obtain ⟨code, hc, -⟩ := index_range_some codes i h0 (by simp [codes]; omega)
  refine ⟨rfl, rfl, ⟨h0, ?_⟩, ⟨name, hn⟩, ⟨code, hc⟩, fun env r j => serve_no_panic env r i j h0 h4⟩
  simp only [systems, List.length_cons, List.length_nil]
  omega

/-- C9 in the state reached from the initial state by `PUT /set-system-idx/1`. -/
theorem index_always_in_range_witness :
    Reachable 1 ∧
    (systems.length = 5 ∧ codes.length = systems.length ∧
    (0 ≤ (1 : Int) ∧ (1 : Int) ≤ (systems.length : Int) - 1) ∧
    (∃ name, index systems 1 = some name) ∧
    (∃ code, index codes 1 = some code) ∧
    ∀ env r j, serve env r 1 ≠ .panicked j) :=
  ⟨Reachable.step sampleEnv (putSetSystemIdx "1" "" []) initSystemIdx 1 Reachable.init
      (by decide),
    index_always_in_range 1
      (Reachable.step sampleEnv (putSetSystemIdx "1" "" []) initSystemIdx 1 Reachable.init
        (by decide))⟩

/-- C10: `PUT /set-system-idx/{id}` is idempotent: for every starting state `i` and
every id, valid or not, the PUT is answered and leaves some index `j`, and the same PUT
performed again in the state it left gets the same response and leaves the same index
`j`. -/
theorem put_set_index_idempotent (env env2 : Env) (id body : String)
    (vars : List (String × String)) (i : Int) :
    ∃ w j, serve env (putSetSystemIdx id body vars) i = .served w j ∧
      serve env2 (putSetSystemIdx id body vars) j = .served w j := by
  obtain ⟨w, f, h⟩ := serve_put_shape env (putSetSystemIdx id body vars) rfl
  refine ⟨w, f.getD i, h i, ?_⟩
  rw [serve_put_env env2 env _ _ rfl, h (f.getD i)]
  cases f <;> rfl

end ApiDeploy
